import Mathlib

/-!
Verification of the pykeops utility layer (`pykeops/common/utils.py`):
broadcasting-shape merging (`check_broadcasting`, `max_tuple`), the
axis/category conversions (`axis2cat`, `cat2axis`), the backend dispatch
shim (`get_tools`) and the build-folder lock decorator
(`create_and_lock_build_folder` / `wrapper_filelock`).

Python exceptions are embedded as the error side of `Except`; the
filesystem and lock effects of the decorator are embedded as an explicit
event trace plus the relevant final state.  The inter-process behavior
of `fcntl.flock` is modelled by a transition system over several workers
running the decorator: the flock is keyed by the inode of the opened lock
file (not by the build-folder path), and the Release-mode cleanup step
that unlinks the lock file is part of each worker's program.
-/

/-- Embedding of the Python exceptions that the utility layer can raise.
`unboundLocalError` models Python's `UnboundLocalError`, raised when a
function reads a local variable that no branch assigned.
`unknownBackend` does not occur in the code; it is the explicit error that
the specification mandates for an unrecognized backend name, included so
that the divergence can be stated. -/
inductive PyError where
  | valueError (msg : String)
  | fileNotFoundError
  | unboundLocalError (name : String)
  | compileFailure (msg : String)
  | unknownBackend (name : String)
  deriving DecidableEq

/-- Discriminator for `Except`: `true` on `ok`, `false` on `error`. -/
def isOkE {ε α : Type} : Except ε α → Bool
  | Except.ok _ => true
  | Except.error _ => false

/-- Embedding of `axis2cat` (utils.py:17-27): on `axis in [0, 1]` return
`(axis + 1) % 2`, otherwise raise `ValueError("Axis should be 0 or 1.")`. -/
def axis2cat (axis : Int) : Except PyError Int :=
  if axis = 0 ∨ axis = 1 then Except.ok ((axis + 1) % 2)
  else Except.error (PyError.valueError "Axis should be 0 or 1.")

/-- Embedding of `cat2axis` (utils.py:30-40): on `cat in [0, 1]` return
`(cat + 1) % 2`, otherwise raise `ValueError("Category should be Vi or Vj.")`. -/
def cat2axis (cat : Int) : Except PyError Int :=
  if cat = 0 ∨ cat = 1 then Except.ok ((cat + 1) % 2)
  else Except.error (PyError.valueError "Category should be Vi or Vj.")

/-- The backend helper classes that `get_tools` can instantiate: `numpytools`
from `pykeops.numpy.utils` and `torchtools` from `pykeops.torch.utils`. -/
inductive ToolsClass where
  | numpytools
  | torchtools
  deriving DecidableEq

/-- Embedding of `get_tools` (utils.py:86-102).  The Python body assigns
`tools` only in the `"numpy"` and `"torch"/"pytorch"` branches; for any
other `lang` the final `return tools` reads the never-assigned local
`tools`, which raises `UnboundLocalError` — not an explicit error about
the backend name. -/
def get_tools (lang : String) : Except PyError ToolsClass :=
  if lang == "numpy" then Except.ok ToolsClass.numpytools
  else if lang == "torch" || lang == "pytorch" then Except.ok ToolsClass.torchtools
  else Except.error (PyError.unboundLocalError "tools")

/-- Embedding of `max_tuple` (utils.py:128-129): elementwise maximum of two
tuples, truncated to the shorter length by `zip`. -/
def max_tuple (a b : List Nat) : List Nat := List.zipWith max a b

/-- Left-padding used by `check_broadcasting` (utils.py:141-142):
`(1,) * (n - len(l)) + l` with Python's clamped repetition count. -/
def padShape (n : Nat) (l : List Nat) : List Nat :=
  List.replicate (n - l.length) 1 ++ l

/-- Embedding of `check_broadcasting` (utils.py:132-148).  A `None` input
is `none`; a shape is a list of naturals.  The loop raising `ValueError`
on the first aligned pair with `dim_1 != 1 and dim_2 != 1 and
dim_1 != dim_2` is rendered as an all-pairs test: which pair triggers the
raise does not affect the result, since the error carries only the
original shapes. -/
def check_broadcasting (dims_1 dims_2 : Option (List Nat)) :
    Except (List Nat × List Nat) (Option (List Nat)) :=
  match dims_1, dims_2 with
  | none, _ => Except.ok dims_2
  | _, none => Except.ok dims_1
  | some d1, some d2 =>
    let padded_dims_1 := padShape d2.length d1
    let padded_dims_2 := padShape d1.length d2
    if (padded_dims_1.zip padded_dims_2).all
        (fun p => !(p.1 != 1 && p.2 != 1 && p.1 != p.2)) then
      Except.ok (some (max_tuple padded_dims_1 padded_dims_2))
    else
      Except.error (d1, d2)

/-- Compatibility of one aligned dimension pair, as the specification words
it: `d1 == d2` or `d1 == 1` or `d2 == 1`. -/
def compatPair (d1 d2 : Nat) : Prop := d1 = d2 ∨ d1 = 1 ∨ d2 = 1

instance (d1 d2 : Nat) : Decidable (compatPair d1 d2) := by
  unfold compatPair; infer_instance

/-- Compatibility of two equal-length padded shapes: every aligned pair is
compatible. -/
def compatShapes (p q : List Nat) : Prop := ∀ pr ∈ p.zip q, compatPair pr.1 pr.2

instance (p q : List Nat) : Decidable (compatShapes p q) := by
  unfold compatShapes; infer_instance

/-- The filesystem and lock operations performed by `wrapper_filelock`
(utils.py:62-83), in program order.  `makedirs` is
`os.makedirs(bf, exist_ok=True)`, which succeeds whether or not the
folder already exists; `rmtreeCall` is the `shutil.rmtree(bf)` cleanup. -/
inductive BuildEvent where
  | makedirs
  | openLockFile
  | flockAcquire
  | runCompile
  | flockRelease
  | closeLockFile
  | rmtreeCall
  deriving DecidableEq

/-- Environment of one `wrapper_filelock` call: the outcome of the wrapped
compilation function `func`, the value of `module_exists(args[0].dll_name)`
observed after it, the value of `pykeops.config.build_type`, and whether
the build folder is still present when (and if) `shutil.rmtree` runs —
`false` only when a concurrent process removed it in the meantime. -/
structure CompileEnv (α : Type) where
  compile : Except PyError α
  module_loadable : Bool
  build_type : String
  folder_present_after : Bool

/-- Observable outcome of one `wrapper_filelock` call: the returned value or
propagated exception, the trace of performed operations, whether the file
lock is still held on exit, and whether the build folder exists on exit. -/
structure BuildRun (α : Type) where
  result : Except PyError α
  events : List BuildEvent
  lock_held_at_end : Bool
  folder_exists_at_end : Bool

/-- Embedding of `wrapper_filelock` (utils.py:62-83).  Control flow of the
source: create the build folder (`exist_ok=True`), open the lock file,
acquire the `fcntl.flock` exclusive lock, run `func`.  If `func` raises,
the two `with` blocks release the lock and close the file and the
exception propagates — the cleanup does not run.  If `func` returns, the
lock is released, and then, when `module_exists(dll_name)` and
`build_type == 'Release'`, `shutil.rmtree(bf)` deletes the folder;
`rmtree` is called without `ignore_errors`, so when the folder is already
absent it raises `FileNotFoundError`.  Otherwise `func`'s result is
returned. -/
def wrapper_filelock {α : Type} (env : CompileEnv α) : BuildRun α :=
  let locked := [BuildEvent.makedirs, BuildEvent.openLockFile,
                 BuildEvent.flockAcquire, BuildEvent.runCompile,
                 BuildEvent.flockRelease, BuildEvent.closeLockFile]
  match env.compile with
  | Except.error e =>
      { result := Except.error e
        events := locked
        lock_held_at_end := false
        folder_exists_at_end := env.folder_present_after }
  | Except.ok v =>
      if env.module_loadable && (env.build_type == "Release") then
        if env.folder_present_after then
          { result := Except.ok v
            events := locked ++ [BuildEvent.rmtreeCall]
            lock_held_at_end := false
            folder_exists_at_end := false }
        else
          { result := Except.error PyError.fileNotFoundError
            events := locked ++ [BuildEvent.rmtreeCall]
            lock_held_at_end := false
            folder_exists_at_end := false }
      else
        { result := Except.ok v
          events := locked
          lock_held_at_end := false
          folder_exists_at_end := env.folder_present_after }

/-- Program order of the operations of one `wrapper_filelock` run, used by
the multi-worker model: indices 0-5 are `makedirs`, open, `flock` acquire,
compile, `flock` release, close; index 6 is the conditional Release-mode
`shutil.rmtree` cleanup, which removes the build folder together with the
lock file inside it. -/
def lockProgram : List BuildEvent :=
  [BuildEvent.makedirs, BuildEvent.openLockFile, BuildEvent.flockAcquire,
   BuildEvent.runCompile, BuildEvent.flockRelease, BuildEvent.closeLockFile,
   BuildEvent.rmtreeCall]

/-- One worker (process or thread) running `wrapper_filelock`: the build
folder it targets, its program counter into `lockProgram`, whether its
cleanup condition `module_exists(dll_name) and build_type == 'Release'`
holds (so its step 6 performs `shutil.rmtree`), and the inode of the lock
file it has opened, if any. -/
structure WorkerState where
  folder : Nat
  pc : Nat
  cleanup : Bool
  fd : Option Nat
  deriving DecidableEq

/-- Global state of `n` concurrent workers.  `fcntl.flock` locks the open
file description's inode, not the path, so lock ownership is keyed by
inode: `lockInode f` is the inode currently linked at
`<f>/pykeops_build2.lock` (`none` when the folder or the file is absent),
fresh inodes are numbered by `nextInode`, and `locks i` is the flock
holder of inode `i` — an entry that survives unlinking while a process
still has the file open. -/
structure FlockSys (n : Nat) where
  workers : Fin n → WorkerState
  folderExists : Nat → Bool
  lockInode : Nat → Option Nat
  nextInode : Nat
  locks : Nat → Option (Fin n)

/-- Point update of a map over folder or inode keys. -/
def updMap {β : Type} (g : Nat → β) (k : Nat) (v : β) : Nat → β :=
  fun x => if x = k then v else g x

/-- Replace worker `w`'s state. -/
def updateW {n : Nat} (ws : Fin n → WorkerState) (w : Fin n) (new : WorkerState) :
    Fin n → WorkerState :=
  fun x => if x = w then new else ws x

/-- Advance a worker's program counter. -/
def bumpPc (ws : WorkerState) : WorkerState :=
  { ws with pc := ws.pc + 1 }

/-- Advance a worker's program counter, recording the opened inode. -/
def withFd (ws : WorkerState) (i : Nat) : WorkerState :=
  { ws with pc := ws.pc + 1, fd := some i }

/-- Effect of `os.makedirs(bf, exist_ok=True)`: the folder exists
afterwards, whether or not it did before. -/
def mkdirsEff {n : Nat} (s : FlockSys n) (w : Fin n) : FlockSys n :=
  { s with
      workers := updateW s.workers w (bumpPc (s.workers w)),
      folderExists := updMap s.folderExists (s.workers w).folder true }

/-- Effect of `open(os.path.join(bf, 'pykeops_build2.lock'), 'w')` when a
lock file is already linked at the path: mode `'w'` truncates but keeps
inode `i`. -/
def openEff {n : Nat} (s : FlockSys n) (w : Fin n) (i : Nat) : FlockSys n :=
  { s with workers := updateW s.workers w (withFd (s.workers w) i) }

/-- Effect of the same `open` when no lock file is linked at the path: a
fresh inode is created and linked there. -/
def openFreshEff {n : Nat} (s : FlockSys n) (w : Fin n) : FlockSys n :=
  { s with
      workers := updateW s.workers w (withFd (s.workers w) s.nextInode),
      lockInode := updMap s.lockInode (s.workers w).folder (some s.nextInode),
      nextInode := s.nextInode + 1 }

/-- Effect of `fcntl.flock(fd, LOCK_EX)` succeeding on inode `i`. -/
def acquireEff {n : Nat} (s : FlockSys n) (w : Fin n) (i : Nat) : FlockSys n :=
  { s with
      workers := updateW s.workers w (bumpPc (s.workers w)),
      locks := updMap s.locks i (some w) }

/-- A step with no shared-state effect: running `func`, closing the lock
file, or skipping the cleanup. -/
def plainEff {n : Nat} (s : FlockSys n) (w : Fin n) : FlockSys n :=
  { s with workers := updateW s.workers w (bumpPc (s.workers w)) }

/-- Effect of `fcntl.flock(fd, LOCK_UN)` on inode `i`. -/
def releaseEff {n : Nat} (s : FlockSys n) (w : Fin n) (i : Nat) : FlockSys n :=
  { s with
      workers := updateW s.workers w (bumpPc (s.workers w)),
      locks := updMap s.locks i none }

/-- Effect of `shutil.rmtree(bf)`: the folder disappears and the lock file
inside it is unlinked from its path; a flock held on the now-unlinked
inode persists for whoever still has it open. -/
def rmtreeEff {n : Nat} (s : FlockSys n) (w : Fin n) : FlockSys n :=
  { s with
      workers := updateW s.workers w (bumpPc (s.workers w)),
      folderExists := updMap s.folderExists (s.workers w).folder false,
      lockInode := updMap s.lockInode (s.workers w).folder none }

/-- Interleaving semantics of the workers, following `wrapper_filelock`'s
program order.  `flock(fd, LOCK_EX)` blocks until the inode referred to by
the caller's open file description has no holder; opening the lock-file
path binds to whatever inode is currently linked there, creating a fresh
one if none is; the `rmtree` step runs only for workers whose cleanup
condition holds and while the folder still exists. -/
inductive FlockStep (n : Nat) : FlockSys n → FlockSys n → Prop where
  | makedirs (s : FlockSys n) (w : Fin n)
      (hpc : (s.workers w).pc = 0) :
      FlockStep n s (mkdirsEff s w)
  | openExisting (s : FlockSys n) (w : Fin n) (i : Nat)
      (hpc : (s.workers w).pc = 1)
      (hdir : s.folderExists (s.workers w).folder = true)
      (hino : s.lockInode (s.workers w).folder = some i) :
      FlockStep n s (openEff s w i)
  | openFresh (s : FlockSys n) (w : Fin n)
      (hpc : (s.workers w).pc = 1)
      (hdir : s.folderExists (s.workers w).folder = true)
      (hino : s.lockInode (s.workers w).folder = none) :
      FlockStep n s (openFreshEff s w)
  | acquire (s : FlockSys n) (w : Fin n) (i : Nat)
      (hpc : (s.workers w).pc = 2)
      (hfd : (s.workers w).fd = some i)
      (hfree : s.locks i = none) :
      FlockStep n s (acquireEff s w i)
  | compile (s : FlockSys n) (w : Fin n)
      (hpc : (s.workers w).pc = 3) :
      FlockStep n s (plainEff s w)
  | release (s : FlockSys n) (w : Fin n) (i : Nat)
      (hpc : (s.workers w).pc = 4)
      (hfd : (s.workers w).fd = some i)
      (hold : s.locks i = some w) :
      FlockStep n s (releaseEff s w i)
  | close (s : FlockSys n) (w : Fin n)
      (hpc : (s.workers w).pc = 5) :
      FlockStep n s (plainEff s w)
  | rmtree (s : FlockSys n) (w : Fin n)
      (hpc : (s.workers w).pc = 6)
      (hcl : (s.workers w).cleanup = true)
      (hdir : s.folderExists (s.workers w).folder = true) :
      FlockStep n s (rmtreeEff s w)
  | skipCleanup (s : FlockSys n) (w : Fin n)
      (hpc : (s.workers w).pc = 6)
      (hcl : (s.workers w).cleanup = false) :
      FlockStep n s (plainEff s w)

/-- States reachable from `s0` by interleaving the workers. -/
def FlockReachable (n : Nat) (s0 s : FlockSys n) : Prop :=
  Relation.ReflTransGen (FlockStep n) s0 s

/-- The worker is at its `runCompile` instruction: the compilation action
is the step it is currently performing. -/
def CompilingNow (ws : WorkerState) : Prop := ws.pc = 3

instance (ws : WorkerState) : Decidable (CompilingNow ws) := by
  unfold CompilingNow; infer_instance

/-- Initial state of the serialization-violating schedule: three workers
all targeting build folder 0; worker 0 runs with `module_exists` true and
`build_type == 'Release'` (so it performs the cleanup), workers 1 and 2 do
not. -/
def raceInit : FlockSys 3 :=
  { workers := fun w => { folder := 0, pc := 0, cleanup := w == 0, fd := none },
    folderExists := fun _ => false,
    lockInode := fun _ => none,
    nextInode := 0,
    locks := fun _ => none }

/-- Worker 0 has created the build folder. -/
def race1 : FlockSys 3 := mkdirsEff raceInit 0

/-- Worker 0 has opened the lock file, creating inode 0. -/
def race2 : FlockSys 3 := openFreshEff race1 0

/-- Worker 1 has run `makedirs` (the folder already exists). -/
def race3 : FlockSys 3 := mkdirsEff race2 1

/-- Worker 1 has opened the same lock file, inode 0. -/
def race4 : FlockSys 3 := openEff race3 1 0

/-- Worker 0 has acquired the flock of inode 0. -/
def race5 : FlockSys 3 := acquireEff race4 0 0

/-- Worker 0 has run its compilation. -/
def race6 : FlockSys 3 := plainEff race5 0

/-- Worker 0 has released the flock of inode 0. -/
def race7 : FlockSys 3 := releaseEff race6 0 0

/-- Worker 0 has closed its lock file. -/
def race8 : FlockSys 3 := plainEff race7 0

/-- Worker 0's Release-mode `rmtree` has deleted the folder and unlinked
the lock file. -/
def race9 : FlockSys 3 := rmtreeEff race8 0

/-- Worker 1, whose open fd still refers to the unlinked inode 0, has
acquired its (now uncontended) flock and reached its compilation step. -/
def race10 : FlockSys 3 := acquireEff race9 1 0

/-- Worker 2 has recreated the build folder. -/
def race11 : FlockSys 3 := mkdirsEff race10 2

/-- Worker 2 has opened a fresh lock file, inode 1. -/
def race12 : FlockSys 3 := openFreshEff race11 2

/-- Worker 2 has acquired the flock of inode 1: workers 1 and 2 are now
both at their compilation step for folder 0. -/
def race13 : FlockSys 3 := acquireEff race12 2 1

lemma compatPair_bool_iff (x y : Nat) :
    (!(x != 1 && y != 1 && x != y)) = true ↔ compatPair x y := by
  unfold compatPair
  by_cases h1 : x = 1 <;> by_cases h2 : y = 1 <;> by_cases h3 : x = y <;>
    simp [h1, h2, h3]

lemma all_compat_iff (p q : List Nat) :
    ((p.zip q).all (fun pr => !(pr.1 != 1 && pr.2 != 1 && pr.1 != pr.2)) = true)
      ↔ compatShapes p q := by
  rw [List.all_eq_true]
  unfold compatShapes
  constructor
  · intro h pr hpr
    exact (compatPair_bool_iff pr.1 pr.2).1 (h pr hpr)
  · intro h pr hpr
    exact (compatPair_bool_iff pr.1 pr.2).2 (h pr hpr)

lemma check_broadcasting_some_some (d1 d2 : List Nat) :
    check_broadcasting (some d1) (some d2) =
      if compatShapes (padShape d2.length d1) (padShape d1.length d2) then
        Except.ok (some (max_tuple (padShape d2.length d1) (padShape d1.length d2)))
      else
        Except.error (d1, d2) := by
  by_cases h : compatShapes (padShape d2.length d1) (padShape d1.length d2)
  · rw [if_pos h]
    simp only [check_broadcasting]
    rw [if_pos ((all_compat_iff _ _).2 h)]
  · rw [if_neg h]
    simp only [check_broadcasting]
    rw [if_neg (fun hb => h ((all_compat_iff _ _).1 hb))]

lemma padShape_length (n : Nat) (l : List Nat) :
    (padShape n l).length = max n l.length := by
  simp [padShape]
  omega

lemma compatPair_symm (x y : Nat) : compatPair x y → compatPair y x := by
  unfold compatPair; tauto

lemma compatShapes_symm (p q : List Nat) (h : compatShapes p q) : compatShapes q p := by
  intro pr hpr
  rw [← List.zip_swap] at hpr
  obtain ⟨x, hx, rfl⟩ := List.mem_map.1 hpr
  exact compatPair_symm x.1 x.2 (h x hx)

lemma max_tuple_comm (p q : List Nat) : max_tuple p q = max_tuple q p := by
  unfold max_tuple
  exact List.zipWith_comm_of_comm max Nat.max_comm p q

lemma race_reachable : FlockReachable 3 raceInit race13 := by
  have s1 : FlockStep 3 raceInit race1 :=
    FlockStep.makedirs raceInit 0 (by decide)
  have s2 : FlockStep 3 race1 race2 :=
    FlockStep.openFresh race1 0 (by decide) (by decide) (by decide)
  have s3 : FlockStep 3 race2 race3 :=
    FlockStep.makedirs race2 1 (by decide)
  have s4 : FlockStep 3 race3 race4 :=
    FlockStep.openExisting race3 1 0 (by decide) (by decide) (by decide)
  have s5 : FlockStep 3 race4 race5 :=
    FlockStep.acquire race4 0 0 (by decide) (by decide) (by decide)
  have s6 : FlockStep 3 race5 race6 :=
    FlockStep.compile race5 0 (by decide)
  have s7 : FlockStep 3 race6 race7 :=
    FlockStep.release race6 0 0 (by decide) (by decide) (by decide)
  have s8 : FlockStep 3 race7 race8 :=
    FlockStep.close race7 0 (by decide)
  have s9 : FlockStep 3 race8 race9 :=
    FlockStep.rmtree race8 0 (by decide) (by decide) (by decide)
  have s10 : FlockStep 3 race9 race10 :=
    FlockStep.acquire race9 1 0 (by decide) (by decide) (by decide)
  have s11 : FlockStep 3 race10 race11 :=
    FlockStep.makedirs race10 2 (by decide)
  have s12 : FlockStep 3 race11 race12 :=
    FlockStep.openFresh race11 2 (by decide) (by decide) (by decide)
  have s13 : FlockStep 3 race12 race13 :=
    FlockStep.acquire race12 2 1 (by decide) (by decide) (by decide)
  exact Relation.ReflTransGen.head s1 (Relation.ReflTransGen.head s2
    (Relation.ReflTransGen.head s3 (Relation.ReflTransGen.head s4
    (Relation.ReflTransGen.head s5 (Relation.ReflTransGen.head s6
    (Relation.ReflTransGen.head s7 (Relation.ReflTransGen.head s8
    (Relation.ReflTransGen.head s9 (Relation.ReflTransGen.head s10
    (Relation.ReflTransGen.head s11 (Relation.ReflTransGen.head s12
    (Relation.ReflTransGen.single s13))))))))))))

/-- Concrete environment for the failing-compilation path: the wrapped
function raises. -/
def envFail : CompileEnv Nat :=
  { compile := Except.error (PyError.compileFailure "boom")
    module_loadable := false
    build_type := "Release"
    folder_present_after := true }

/-- Concrete environment for the cleanup race: Release build, artifact
loadable, but the folder has been removed by another process before
`shutil.rmtree` runs. -/
def envRace : CompileEnv Nat :=
  { compile := Except.ok 7
    module_loadable := true
    build_type := "Release"
    folder_present_after := false }

/-- Concrete Release-mode environment with a loadable artifact and no
interference. -/
def envRel : CompileEnv Nat :=
  { compile := Except.ok 3
    module_loadable := true
    build_type := "Release"
    folder_present_after := true }

/-- Concrete non-Release environment with a loadable artifact. -/
def envDebug : CompileEnv Nat :=
  { compile := Except.ok 3
    module_loadable := true
    build_type := "Debug"
    folder_present_after := true }

/-- C1: for every pair of non-absent shapes `d1` and `d2`,
`check_broadcasting` left-pads the shorter with 1s to length
`max (len d1) (len d2)`; it succeeds iff every aligned pair of padded
dimensions is equal or contains a 1, in which case the result is the
elementwise maximum of the padded inputs; otherwise it fails with an
error carrying both original (unpadded) shapes. -/
theorem check_broadcasting_spec (d1 d2 : List Nat) :
    (padShape d2.length d1).length = max d1.length d2.length ∧
    (padShape d1.length d2).length = max d1.length d2.length ∧
    (isOkE (check_broadcasting (some d1) (some d2)) = true ↔
      compatShapes (padShape d2.length d1) (padShape d1.length d2)) ∧
    (compatShapes (padShape d2.length d1) (padShape d1.length d2) →
      check_broadcasting (some d1) (some d2) =
        Except.ok (some (max_tuple (padShape d2.length d1) (padShape d1.length d2)))) ∧
    (¬ compatShapes (padShape d2.length d1) (padShape d1.length d2) →
      check_broadcasting (some d1) (some d2) = Except.error (d1, d2)) := by
  refine ⟨?_, ?_, ?_, ?_, ?_⟩
  · rw [padShape_length, Nat.max_comm]
  · rw [padShape_length]
  · rw [check_broadcasting_some_some]
    by_cases h : compatShapes (padShape d2.length d1) (padShape d1.length d2) <;>
      simp [h, isOkE]
  · intro h; rw [check_broadcasting_some_some, if_pos h]
  · intro h; rw [check_broadcasting_some_some, if_neg h]

/-- Witness for C1 at the spec's own examples: `(1,5)` with `(3,5)` merges
to `(3,5)`, and `(3,4)` with `(2,4)` fails carrying both inputs. -/
theorem check_broadcasting_spec_witness :
    (compatShapes (padShape 2 [1, 5]) (padShape 2 [3, 5]) ∧
      check_broadcasting (some [1, 5]) (some [3, 5]) = Except.ok (some [3, 5])) ∧
    (¬ compatShapes (padShape 2 [3, 4]) (padShape 2 [2, 4]) ∧
      check_broadcasting (some [3, 4]) (some [2, 4]) = Except.error ([3, 4], [2, 4])) := by
  constructor
  · refine ⟨by decide, ?_⟩
    rw [(check_broadcasting_spec [1, 5] [3, 5]).2.2.2.1 (by decide)]
    rfl
  · refine ⟨by decide, ?_⟩
    rw [(check_broadcasting_spec [3, 4] [2, 4]).2.2.2.2 (by decide)]

/-- C8: an absent shape constraint is an identity element of
`check_broadcasting`: merging `none` with any `s` (absent included)
returns `s` unchanged, on either side. -/
theorem check_broadcasting_none_identity (s : Option (List Nat)) :
    check_broadcasting none s = Except.ok s ∧
    check_broadcasting s none = Except.ok s := by
  cases s <;> exact ⟨rfl, rfl⟩

/-- C9: `check_broadcasting` succeeds on `(a, b)` iff it succeeds on
`(b, a)`, and on success the merged shapes of the two argument orders are
equal. -/
theorem check_broadcasting_comm (a b : Option (List Nat)) :
    (isOkE (check_broadcasting a b) = isOkE (check_broadcasting b a)) ∧
    (isOkE (check_broadcasting a b) = true →
      check_broadcasting a b = check_broadcasting b a) := by
  match a, b with
  | none, none => exact ⟨rfl, fun _ => rfl⟩
  | none, some l => exact ⟨rfl, fun _ => rfl⟩
  | some l, none => exact ⟨rfl, fun _ => rfl⟩
  | some d1, some d2 =>
    rw [check_broadcasting_some_some d1 d2, check_broadcasting_some_some d2 d1]
    by_cases h : compatShapes (padShape d2.length d1) (padShape d1.length d2)
    · have h' : compatShapes (padShape d1.length d2) (padShape d2.length d1) :=
        compatShapes_symm _ _ h
      rw [if_pos h, if_pos h']
      refine ⟨rfl, fun _ => ?_⟩
      rw [max_tuple_comm]
    · have h' : ¬ compatShapes (padShape d1.length d2) (padShape d2.length d1) :=
        fun hc => h (compatShapes_symm _ _ hc)
      rw [if_neg h, if_neg h']
      exact ⟨rfl, fun hok => by simp [isOkE] at hok⟩

/-- Witness for C9: the merge of `(1,5)` and `(3,5)` is the same in both
argument orders. -/
theorem check_broadcasting_comm_witness :
    isOkE (check_broadcasting (some [1, 5]) (some [3, 5])) = true ∧
    check_broadcasting (some [1, 5]) (some [3, 5]) =
      check_broadcasting (some [3, 5]) (some [1, 5]) :=
  ⟨rfl, (check_broadcasting_comm (some [1, 5]) (some [3, 5])).2 rfl⟩

/-- C10: on inputs 0 and 1 both `axis2cat` and `cat2axis` compute
`(a + 1) % 2`, hence are mutual inverses there; on any other integer both
raise a `ValueError`. -/
theorem axis_cat_inverse :
    (∀ a : Int, a = 0 ∨ a = 1 →
      axis2cat a = Except.ok ((a + 1) % 2) ∧
      cat2axis a = Except.ok ((a + 1) % 2) ∧
      (axis2cat a).bind cat2axis = Except.ok a ∧
      (cat2axis a).bind axis2cat = Except.ok a) ∧
    (∀ a : Int, ¬(a = 0 ∨ a = 1) →
      axis2cat a = Except.error (PyError.valueError "Axis should be 0 or 1.") ∧
      cat2axis a = Except.error (PyError.valueError "Category should be Vi or Vj.")) := by
  constructor
  · rintro a (rfl | rfl) <;> exact ⟨rfl, rfl, rfl, rfl⟩
  · intro a ha
    constructor
    · unfold axis2cat; rw [if_neg ha]
    · unfold cat2axis; rw [if_neg ha]

/-- Witness for C10 at axis 0 (valid) and 5 (invalid). -/
theorem axis_cat_inverse_witness :
    ((0 : Int) = 0 ∨ (0 : Int) = 1) ∧ axis2cat 0 = Except.ok 1 ∧
    ¬((5 : Int) = 0 ∨ (5 : Int) = 1) ∧
    cat2axis 5 = Except.error (PyError.valueError "Category should be Vi or Vj.") :=
  ⟨Or.inl rfl, (axis_cat_inverse.1 0 (Or.inl rfl)).1, by decide,
    (axis_cat_inverse.2 5 (by decide)).2⟩

/-- C2: when the wrapped compilation function raises, `wrapper_filelock`
propagates that same exception unchanged, ends with the lock released
(having executed the release), and performs no cleanup: `shutil.rmtree`
is never called and the build folder's existence is untouched. -/
theorem wrapper_filelock_error_path {α : Type} (env : CompileEnv α) (e : PyError)
    (hc : env.compile = Except.error e) :
    (wrapper_filelock env).result = Except.error e ∧
    (wrapper_filelock env).lock_held_at_end = false ∧
    BuildEvent.flockRelease ∈ (wrapper_filelock env).events ∧
    BuildEvent.rmtreeCall ∉ (wrapper_filelock env).events ∧
    (wrapper_filelock env).folder_exists_at_end = env.folder_present_after := by
  simp [wrapper_filelock, hc]

/-- Witness for C2 on a concrete failing compilation. -/
theorem wrapper_filelock_error_path_witness :
    (wrapper_filelock envFail).result = Except.error (PyError.compileFailure "boom") ∧
    (wrapper_filelock envFail).lock_held_at_end = false ∧
    BuildEvent.flockRelease ∈ (wrapper_filelock envFail).events ∧
    BuildEvent.rmtreeCall ∉ (wrapper_filelock envFail).events ∧
    (wrapper_filelock envFail).folder_exists_at_end = envFail.folder_present_after :=
  wrapper_filelock_error_path envFail (PyError.compileFailure "boom") rfl

/-- C3 (divergence): in the claimed race — successful Release-mode compile,
loadable artifact, build folder already removed by another process at
deletion time — the code does not treat the condition as success:
`shutil.rmtree` is called without `ignore_errors` and the caller gets a
`FileNotFoundError` instead of the compilation action's result. -/
theorem wrapper_filelock_cleanup_race_bug :
    envRace.compile = Except.ok 7 ∧
    envRace.module_loadable = true ∧
    envRace.build_type = "Release" ∧
    envRace.folder_present_after = false ∧
    (wrapper_filelock envRace).result = Except.error PyError.fileNotFoundError ∧
    (wrapper_filelock envRace).result ≠ Except.ok 7 := by
  refine ⟨rfl, rfl, rfl, rfl, rfl, ?_⟩
  intro h
  rw [show (wrapper_filelock envRace).result
        = Except.error PyError.fileNotFoundError from rfl] at h
  exact Except.noConfusion h

/-- C4 (divergence): `get_tools` dispatches `"numpy"`, `"torch"` and
`"pytorch"` to the two backend helper classes, but for any other name it
raises `UnboundLocalError` on `return tools` instead of an explicit
unknown-backend error. -/
theorem get_tools_dispatch :
    get_tools "numpy" = Except.ok ToolsClass.numpytools ∧
    get_tools "torch" = Except.ok ToolsClass.torchtools ∧
    get_tools "pytorch" = Except.ok ToolsClass.torchtools ∧
    get_tools "bogus" = Except.error (PyError.unboundLocalError "tools") ∧
    get_tools "bogus" ≠ Except.error (PyError.unknownBackend "bogus") := by
  refine ⟨rfl, rfl, rfl, rfl, ?_⟩
  intro h
  rw [show get_tools "bogus"
        = Except.error (PyError.unboundLocalError "tools") from rfl] at h
  have h2 : PyError.unboundLocalError "tools" = PyError.unknownBackend "bogus" :=
    Except.error.inj h
  exact PyError.noConfusion h2

/-- C5: after a successful compile (no concurrent interference), the build
folder is deleted exactly when the artifact is loadable and the build type
is Release; otherwise it survives and the cleanup is never invoked. -/
theorem wrapper_filelock_cleanup_policy {α : Type} (env : CompileEnv α) (v : α)
    (hc : env.compile = Except.ok v) (hp : env.folder_present_after = true) :
    ((env.module_loadable && (env.build_type == "Release")) = true →
      (wrapper_filelock env).result = Except.ok v ∧
      (wrapper_filelock env).folder_exists_at_end = false) ∧
    ((env.module_loadable && (env.build_type == "Release")) = false →
      (wrapper_filelock env).folder_exists_at_end = true ∧
      BuildEvent.rmtreeCall ∉ (wrapper_filelock env).events) := by
  constructor
  · intro h; constructor <;> simp [wrapper_filelock, hc, h, hp]
  · intro h; constructor <;> simp [wrapper_filelock, hc, h, hp]

/-- Witness for C5: Release mode with loadable artifact deletes the folder;
Debug mode keeps it. -/
theorem wrapper_filelock_cleanup_policy_witness :
    ((wrapper_filelock envRel).result = Except.ok 3 ∧
      (wrapper_filelock envRel).folder_exists_at_end = false) ∧
    ((wrapper_filelock envDebug).folder_exists_at_end = true ∧
      BuildEvent.rmtreeCall ∉ (wrapper_filelock envDebug).events) :=
  ⟨(wrapper_filelock_cleanup_policy envRel 3 rfl rfl).1 (by decide),
    (wrapper_filelock_cleanup_policy envDebug 3 rfl rfl).2 (by decide)⟩

/-- C6: every run of `wrapper_filelock` begins with the idempotent
`makedirs`, then opens the lock file, acquires the lock, runs the
compilation function exactly once strictly between acquisition and
release, and (without concurrent interference) returns the function's
result on success. -/
theorem wrapper_filelock_lock_discipline {α : Type} (env : CompileEnv α) (v : α)
    (hc : env.compile = Except.ok v) (hp : env.folder_present_after = true) :
    (∃ tail, (wrapper_filelock env).events =
        [BuildEvent.makedirs, BuildEvent.openLockFile, BuildEvent.flockAcquire,
         BuildEvent.runCompile, BuildEvent.flockRelease, BuildEvent.closeLockFile]
          ++ tail ∧
      BuildEvent.runCompile ∉ tail) ∧
    (wrapper_filelock env).result = Except.ok v := by
  cases hrel : env.module_loadable && (env.build_type == "Release") with
  | true =>
    refine ⟨⟨[BuildEvent.rmtreeCall], ?_, by decide⟩, ?_⟩ <;>
      simp [wrapper_filelock, hc, hrel, hp]
  | false =>
    refine ⟨⟨[], ?_, by decide⟩, ?_⟩ <;>
      simp [wrapper_filelock, hc, hrel]

/-- Witness for C6 on a concrete Release-mode run. -/
theorem wrapper_filelock_lock_discipline_witness :
    (∃ tail, (wrapper_filelock envRel).events =
        [BuildEvent.makedirs, BuildEvent.openLockFile, BuildEvent.flockAcquire,
         BuildEvent.runCompile, BuildEvent.flockRelease, BuildEvent.closeLockFile]
          ++ tail ∧
      BuildEvent.runCompile ∉ tail) ∧
    (wrapper_filelock envRel).result = Except.ok 3 :=
  wrapper_filelock_lock_discipline envRel 3 rfl rfl

/-- C7 (divergence): the `flock` is tied to the lock-file inode inside the
build folder, and the Release-mode cleanup deletes that file, so
same-folder compilations are not strictly serialized: from the initial
state of the race schedule the system reaches a state in which workers 1
and 2 are simultaneously at their compilation step for the same build
folder, each holding the flock of a different incarnation of that
folder's lock file. -/
theorem compile_serialization_bug :
    ∃ s : FlockSys 3, FlockReachable 3 raceInit s ∧
      CompilingNow (s.workers 1) ∧ CompilingNow (s.workers 2) ∧
      (s.workers 1).folder = (s.workers 2).folder ∧
      s.locks 0 = some 1 ∧ s.locks 1 = some 2 :=
  ⟨race13, race_reachable, by decide, by decide, by decide, by decide, by decide⟩
